import Mathlib

/-!
Shallow embedding of `src/app.py` (Query-PDF backend, persistent-disk revision).

The program is a Flask app with routes `/upload`, `/ask`, `/get-pdf/<name>`,
`/get-pdf-names`.  Its own logic is: extension and size validation of uploads,
writing files and FAISS indexes to disk, maintaining a JSON filename registry,
loading and merging the per-document indexes at query time, and reshaping
retrieval metadata into the JSON response.

External libraries are modelled as follows:
 * the filesystem state (upload directory, FAISS index directory, registry
   JSON file) is an explicit `AppState` record threaded through the handlers;
 * `werkzeug.utils.secure_filename` and
   `RecursiveCharacterTextSplitter.split_text` are opaque external functions,
   passed in an `Ext` record;
 * a FAISS vector store is its list of stored documents (`Doc`), each carrying
   the text and the optional `source` / `page` metadata entries;
   `FAISS.from_texts` (called by the code with no `metadatas` argument) stores
   the texts with empty metadata; `merge_from` appends; `load_local` succeeding
   is modelled by the index being present in the index directory;
 * the retrieval chain and the LLM are not modelled: an `/ask` request carries
   a `ChainOutcome` saying what `retrieval_chain.invoke` returned (an answer
   plus context documents) or what exception it raised;
 * PyPDF2 page extraction is modelled by each uploaded file carrying the list
   of page texts `extract_text` would return.
-/

namespace QueryPDF

/-- Raw file bytes. -/
abbrev Bytes := List Nat

/-- A document stored in a FAISS vector store: its text and the optional
`source` and `page` metadata fields read by `ask_question`. -/
structure Doc where
  text : String
  metaSource : Option String
  metaPage : Option Int
deriving DecidableEq

/-- A FAISS vector store, as its list of stored documents. -/
abbrev VectorStore := List Doc

/-- `ALLOWED_EXTENSIONS = {"pdf"}` from app.py line 36. -/
def ALLOWED_EXTENSIONS : List String := ["pdf"]

/-- `MAX_FILE_SIZE_MB = 25` from app.py line 37. -/
def MAX_FILE_SIZE_MB : Nat := 25

/-- Association-list lookup by key (first match wins), modelling a
filename-indexed directory on disk. -/
def assocLookup (k : String) : List (String × β) → Option β
  | [] => none
  | (k', v) :: rest => if k' = k then some v else assocLookup k rest

/-- Write `v` under key `k`, overwriting any previous entry (models writing a
file at a path). -/
def assocStore (k : String) (v : β) (m : List (String × β)) : List (String × β) :=
  (m.filter (fun p => p.1 ≠ k)) ++ [(k, v)]

/-- The persistent on-disk state of the app: the PDF upload directory, the
FAISS index directory, and the parsed content of `pdf_filenames.json`
(a missing or corrupt registry file reads as `[]`, per
`get_pdf_filenames_from_disk`). -/
structure AppState where
  uploadDir : List (String × Bytes)
  indexDir : List (String × VectorStore)
  registry : List String
deriving DecidableEq

/-- External library functions the handlers call:
`werkzeug.utils.secure_filename` and the chunker
`RecursiveCharacterTextSplitter(chunk_size=1000, chunk_overlap=200).split_text`.
Both are opaque to the program logic. -/
structure Ext where
  secure_filename : String → String
  split_text : String → List String

/-- Split a character list at every occurrence of `sep`, like Python
`str.split` with a one-character separator (empty parts kept). -/
def splitOnChar (sep : Char) : List Char → List (List Char)
  | [] => [[]]
  | c :: rest =>
    match splitOnChar sep rest with
    | [] => [[]]
    | cur :: parts => if c = sep then [] :: cur :: parts else (c :: cur) :: parts

/-- `allowed_file` (app.py lines 84-86):
`"." in filename and filename.rsplit(".", 1)[1].lower() in ALLOWED_EXTENSIONS`.
`rsplit(".", 1)[1]` is the text after the last dot, and `"." in filename`
holds exactly when splitting on `"."` yields at least two parts. -/
def allowed_file (filename : String) : Bool :=
  let parts := splitOnChar '.' filename.data
  decide (parts.length ≥ 2)
    && ALLOWED_EXTENSIONS.contains (String.mk ((parts.getLastD []).map Char.toLower))

/-- `get_pdf_filenames_from_disk` (app.py lines 88-96): reads the registry
list from `pdf_filenames.json`; in the state model this is the `registry`
field (missing/corrupt file already normalised to `[]`). -/
def get_pdf_filenames_from_disk (st : AppState) : List String :=
  st.registry

/-- `update_pdf_filenames_on_disk` (app.py lines 98-104): appends `filename`
to the registry unless it is already present, in which case the file on disk
is not rewritten. -/
def update_pdf_filenames_on_disk (filename : String) (current_files : List String) : List String :=
  if filename ∈ current_files then current_files else current_files ++ [filename]

/-- `os.path.basename`: the final path component, i.e. the text after the
last `/`. -/
def basename (p : String) : String :=
  String.mk ((splitOnChar '/' p.data).getLastD [])

/-- `extract_text_from_pdf` (app.py lines 106-118): concatenates the
non-empty page texts of the PDF.  Page boundaries and page numbers are
discarded. -/
def extract_text_from_pdf (pages : List String) : String :=
  String.join (pages.filter (fun t => t ≠ ""))

/-- `FAISS.from_texts(texts=text_chunks, embedding=embeddings)` as called by
`create_and_save_embeddings` (app.py line 123): no `metadatas` argument is
passed, so every stored document has empty metadata. -/
def FAISS_from_texts (texts : List String) : VectorStore :=
  texts.map (fun t => { text := t, metaSource := none, metaPage := none })

/-- `load_and_merge_vector_stores` (app.py lines 131-153) merge step for one
registry entry: if an index exists at
`FAISS_INDEX_DIR/secure_filename(filename)` and loads, it becomes the base
store when none is loaded yet and is otherwise merged (appended, per FAISS
`merge_from`) into the accumulator; a missing or unloadable index is
skipped. -/
def mergeStep (ext : Ext) (indexDir : List (String × VectorStore))
    (acc : Option VectorStore) (filename : String) : Option VectorStore :=
  match assocLookup (ext.secure_filename filename) indexDir with
  | none => acc
  | some s =>
    match acc with
    | none => some s
    | some m => some (m ++ s)

/-- `load_and_merge_vector_stores` (app.py lines 131-153): returns `None`
when the registry is empty, otherwise folds `mergeStep` over the registry in
order, starting from no store. -/
def load_and_merge_vector_stores (ext : Ext) (st : AppState) : Option VectorStore :=
  let pdf_filenames := get_pdf_filenames_from_disk st
  if pdf_filenames = [] then none
  else pdf_filenames.foldl (mergeStep ext st.indexDir) none

/-- One file part of a multipart `/upload` request, together with the
behaviour of the external libraries on it: the raw bytes (whose length is the
`file.tell()` size), the page texts PyPDF2 would extract, and whether
`create_and_save_embeddings` (embedding plus `save_local`) succeeds or
raises. -/
structure UpFile where
  filename : String
  bytes : Bytes
  pages : List String
  embedOk : Bool
deriving DecidableEq

/-- Accumulator of the `/upload` per-file loop: the evolving disk state and
the `processed_files` / `errors` lists. -/
structure LoopAcc where
  st : AppState
  processed : List String
  errors : List String
deriving DecidableEq

/-- One iteration of the `/upload` per-file loop (app.py lines 175-212), in
source order: extension check, size check (both before any disk write), then
`file.save`, text extraction, chunking, `create_and_save_embeddings`, and
finally `update_pdf_filenames_on_disk` plus `processed_files.append`.  A
failed extraction or a raised embedding error leaves the saved file in the
upload directory but creates no index and registers no name. -/
def process_one (ext : Ext) (acc : LoopAcc) (f : UpFile) : LoopAcc :=
  if allowed_file f.filename = false then
    { acc with errors := acc.errors ++ ["Invalid file type: " ++ f.filename] }
  else if f.bytes.length > MAX_FILE_SIZE_MB * 1024 * 1024 then
    { acc with errors := acc.errors ++
        ["File exceeds " ++ toString MAX_FILE_SIZE_MB ++ "MB limit: " ++ f.filename] }
  else
    let filename := ext.secure_filename f.filename
    let st1 := { acc.st with uploadDir := assocStore filename f.bytes acc.st.uploadDir }
    let text := extract_text_from_pdf f.pages
    if text = "" then
      { acc with st := st1, errors := acc.errors ++
          ["Could not extract text from " ++ filename ++ ". It might be empty or image-based."] }
    else if f.embedOk = false then
      { acc with st := st1, errors := acc.errors ++
          ["An internal error occurred while processing " ++ f.filename ++ "."] }
    else
      let chunks := ext.split_text text
      let st2 := { st1 with indexDir := assocStore filename (FAISS_from_texts chunks) st1.indexDir }
      let st3 := { st2 with registry := update_pdf_filenames_on_disk filename st2.registry }
      { st := st3, processed := acc.processed ++ [filename], errors := acc.errors }

/-- JSON body and status of an `/upload` response. -/
structure UploadResponse where
  status : Nat
  error : Option String
  details : Option (List String)
  message : Option String
  processed_files : Option (List String)
  errors : Option (List String)
deriving DecidableEq

/-- A 400 `/upload` response carrying only an `error` field. -/
def uploadErr400 (msg : String) : UploadResponse :=
  { status := 400, error := some msg, details := none, message := none,
    processed_files := none, errors := none }

/-- `upload_files` (app.py lines 162-221): rejects a request without a
`files` part or with an empty file list or an empty first filename, runs the
per-file loop, returns 400 `Failed to process any files.` when nothing was
processed and errors accrued, and otherwise 200 with the processed list.  The
new disk state is whatever the loop left behind, in every branch that ran
the loop. -/
def upload_files (ext : Ext) (st : AppState) (files : Option (List UpFile)) :
    AppState × UploadResponse :=
  match files with
  | none => (st, uploadErr400 "No files part in the request")
  | some [] => (st, uploadErr400 "No files selected for uploading")
  | some (f :: fs) =>
    if f.filename = "" then (st, uploadErr400 "No files selected for uploading")
    else
      let acc := (f :: fs).foldl (process_one ext) { st := st, processed := [], errors := [] }
      if acc.processed = [] ∧ acc.errors ≠ [] then
        (acc.st, { status := 400, error := some "Failed to process any files.",
                   details := some acc.errors, message := none,
                   processed_files := none, errors := none })
      else
        (acc.st, { status := 200, error := none, details := none,
                   message := some ("Successfully processed " ++
                     toString acc.processed.length ++ " file(s)."),
                   processed_files := some acc.processed, errors := some acc.errors })

/-- What `retrieval_chain.invoke` did on an `/ask` request: returned an
answer with context documents, or raised an exception whose text is `msg`.
The exception text is recorded so theorems can state how (whether) the
handler inspects it. -/
inductive ChainOutcome where
  | ok (answer : String) (context : List Doc)
  | exn (msg : String)
deriving DecidableEq

/-- JSON body and status of an `/ask` response.  A context entry is the
`{source, page}` pair the handler builds. -/
structure AskResponse where
  status : Nat
  error : Option String
  answer : Option String
  context : Option (List (String × Int))
deriving DecidableEq

/-- The `{source, page}` entry `ask_question` builds from one context
document (app.py lines 250-253):
`source = os.path.basename(metadata.get("source", "Unknown"))` and
`page = int(metadata.get("page", -1)) + 1`. -/
def context_entry (d : Doc) : String × Int :=
  (basename (d.metaSource.getD "Unknown"), d.metaPage.getD (-1) + 1)

/-- The duplicate-removal step of `ask_question` (app.py line 256):
`[dict(t) for t in {tuple(d.items()) for d in context_sources}]` collapses
equal `(source, page)` pairs through a Python set.  Set iteration order is
unspecified; the model keeps first occurrences. -/
def unique_sources (context_sources : List (String × Int)) : List (String × Int) :=
  context_sources.dedup

/-- `ask_question` (app.py lines 223-266): errors out when
`load_and_merge_vector_stores` yields no store, then when no (non-empty)
question is supplied; otherwise answers from the chain outcome, mapping a
raised exception to a fixed 500 response and a result to 200 with the
deduplicated context entries. -/
def ask_question (ext : Ext) (st : AppState) (question : Option String)
    (outcome : ChainOutcome) : AskResponse :=
  match load_and_merge_vector_stores ext st with
  | none =>
    { status := 400,
      error := some "Vector store is not initialized. Please upload PDF files first.",
      answer := none, context := none }
  | some _ =>
    match question with
    | none =>
      { status := 400, error := some "No question provided", answer := none, context := none }
    | some q =>
      if q = "" then
        { status := 400, error := some "No question provided", answer := none, context := none }
      else
        match outcome with
        | ChainOutcome.exn _ =>
          { status := 500, error := some "An error occurred while processing your question.",
            answer := none, context := none }
        | ChainOutcome.ok ans ctx =>
          { status := 200, error := none, answer := some ans,
            context := some (unique_sources (ctx.map context_entry)) }

/-- Body and status of a `/get-pdf/<name>` response: the raw file bytes or a
404 error. -/
structure GetPdfResponse where
  status : Nat
  body : Option Bytes
  error : Option String
deriving DecidableEq

/-- `get_pdf` (app.py lines 268-276): sanitises the requested name, serves
the file from the upload directory when it exists, otherwise returns 404
`PDF not found`. -/
def get_pdf (ext : Ext) (st : AppState) (pdf_name : String) : GetPdfResponse :=
  let safe_pdf_name := ext.secure_filename pdf_name
  match assocLookup safe_pdf_name st.uploadDir with
  | some b => { status := 200, body := some b, error := none }
  | none => { status := 404, body := none, error := some "PDF not found" }

/-- `get_pdf_names` (app.py lines 278-281): the `pdfNames` list of the
response is the registry as read from disk. -/
def get_pdf_names (st : AppState) : List String :=
  get_pdf_filenames_from_disk st

/-! ## Concrete fixtures for witnesses and counterexamples -/

/-- Concrete external functions for evaluation: an identity sanitiser (every
fixture filename is already safe) and a one-chunk splitter. -/
def ext0 : Ext :=
  { secure_filename := fun s => s, split_text := fun t => [t] }

/-- The empty disk state (fresh deployment: no uploads, no indexes, empty
registry). -/
def st0 : AppState :=
  { uploadDir := [], indexDir := [], registry := [] }

/-- A small valid PDF upload: one page of text, embedding succeeds. -/
def f0 : UpFile :=
  { filename := "doc.pdf", bytes := [37, 80, 68, 70], pages := ["hello world"], embedOk := true }

/-- A metadata-free stored document, as `FAISS_from_texts` produces. -/
def d0 : Doc :=
  { text := "hello world", metaSource := none, metaPage := none }

/-- A second metadata-free stored document. -/
def d1 : Doc :=
  { text := "other text", metaSource := none, metaPage := none }

/-- A state whose registry names one document with a loadable index. -/
def stOne : AppState :=
  { uploadDir := [("a.pdf", [1])], indexDir := [("a.pdf", [d0])], registry := ["a.pdf"] }

/-- A state whose single loadable index stores the same document twice. -/
def stDup : AppState :=
  { uploadDir := [], indexDir := [("a.pdf", [d0, d0])], registry := ["a.pdf"] }

/-- A state with two loadable indexes whose registry order (`b.pdf` before
`a.pdf`) differs from the index-directory order. -/
def stTwo : AppState :=
  { uploadDir := [], indexDir := [("a.pdf", [d0]), ("b.pdf", [d1])],
    registry := ["b.pdf", "a.pdf"] }

/-! ## Helper lemmas -/

/-- Folding the merge step from an already-loaded base store appends, in
registry order, every loadable index that follows. -/
theorem foldl_mergeStep_some (ext : Ext) (idx : List (String × VectorStore)) :
    ∀ (l : List String) (m : VectorStore),
      l.foldl (mergeStep ext idx) (some m)
        = some (m ++ (l.filterMap (fun fn => assocLookup (ext.secure_filename fn) idx)).flatten) := by
  intro l
  induction l with
  | nil => intro m; simp
  | cons fn t ih =>
    intro m
    simp only [List.foldl_cons, List.filterMap_cons]
    cases h : assocLookup (ext.secure_filename fn) idx with
    | none => simp [mergeStep, h, ih]
    | some s => simp [mergeStep, h, ih]

/-- Folding the merge step from no store: the result is the concatenation of
the loadable indexes in registry order, or nothing when no entry loads. -/
theorem foldl_mergeStep_none (ext : Ext) (idx : List (String × VectorStore)) :
    ∀ (l : List String),
      l.foldl (mergeStep ext idx) none
        = (if l.filterMap (fun fn => assocLookup (ext.secure_filename fn) idx) = []
           then none
           else some (l.filterMap (fun fn => assocLookup (ext.secure_filename fn) idx)).flatten) := by
  intro l
  induction l with
  | nil => simp
  | cons fn t ih =>
    simp only [List.foldl_cons, List.filterMap_cons]
    cases h : assocLookup (ext.secure_filename fn) idx with
    | none => simp [mergeStep, h, ih]
    | some s => simp [mergeStep, h, foldl_mergeStep_some]

/-- Characterisation of `load_and_merge_vector_stores`: the merged store is
the concatenation, in registry order, of the loadable per-document indexes,
and is `none` exactly when no registry entry has a loadable index. -/
theorem load_and_merge_spec (ext : Ext) (st : AppState) :
    load_and_merge_vector_stores ext st
      = (if st.registry.filterMap
            (fun fn => assocLookup (ext.secure_filename fn) st.indexDir) = []
         then none
         else some (st.registry.filterMap
            (fun fn => assocLookup (ext.secure_filename fn) st.indexDir)).flatten) := by
  unfold load_and_merge_vector_stores get_pdf_filenames_from_disk
  by_cases h : st.registry = []
  · simp [h]
  · simp only [h, if_false, foldl_mergeStep_none]

/-- Appending an already-registered filename does not change the registry. -/
theorem update_mem_eq (f : String) (reg : List String) (h : f ∈ reg) :
    update_pdf_filenames_on_disk f reg = reg := by
  simp [update_pdf_filenames_on_disk, h]

/-- A registered filename stays registered after any further registration. -/
theorem update_mem_mono (f g : String) (reg : List String) (h : g ∈ reg) :
    g ∈ update_pdf_filenames_on_disk f reg := by
  unfold update_pdf_filenames_on_disk
  split
  · exact h
  · exact List.mem_append_left _ h

/-- The registered filename is in the updated registry. -/
theorem update_mem_self (f : String) (reg : List String) :
    f ∈ update_pdf_filenames_on_disk f reg := by
  unfold update_pdf_filenames_on_disk
  split
  · assumption
  · simp

/-- `update_pdf_filenames_on_disk` preserves duplicate-freeness. -/
theorem update_nodup (f : String) (reg : List String) (h : reg.Nodup) :
    (update_pdf_filenames_on_disk f reg).Nodup := by
  unfold update_pdf_filenames_on_disk
  split
  · exact h
  · simp_all [List.nodup_append]

/-- Folding registrations over any starting registry preserves
duplicate-freeness. -/
theorem foldl_update_nodup :
    ∀ (fs : List String) (reg : List String), reg.Nodup →
      (fs.foldl (fun r g => update_pdf_filenames_on_disk g r) reg).Nodup := by
  intro fs
  induction fs with
  | nil => intro reg h; exact h
  | cons f t ih => intro reg h; exact ih _ (update_nodup f reg h)

/-- The upload loop never removes a registry entry. -/
theorem process_one_registry_mono (ext : Ext) (f : UpFile) (acc : LoopAcc) (g : String)
    (h : g ∈ acc.st.registry) : g ∈ (process_one ext acc f).st.registry := by
  simp only [process_one]
  split_ifs <;> first
    | exact h
    | exact update_mem_mono _ _ _ h

/-- Folding the upload loop never removes a registry entry. -/
theorem foldl_registry_mono (ext : Ext) :
    ∀ (files : List UpFile) (acc : LoopAcc) (g : String), g ∈ acc.st.registry →
      g ∈ (files.foldl (process_one ext) acc).st.registry := by
  intro files
  induction files with
  | nil => intro acc g h; exact h
  | cons f t ih => intro acc g h; exact ih _ _ (process_one_registry_mono ext f acc g h)

/-- The `/upload` handler never removes a registry entry, whatever the
request contains. -/
theorem upload_registry_mono (ext : Ext) (st : AppState) (files : Option (List UpFile))
    (g : String) (h : g ∈ st.registry) : g ∈ (upload_files ext st files).1.registry := by
  match files with
  | none => exact h
  | some [] => exact h
  | some (f :: fs) =>
    by_cases hf : f.filename = ""
    · simpa [upload_files, hf] using h
    · simp only [upload_files, hf, if_false]
      split
      · exact foldl_registry_mono ext (f :: fs) { st := st, processed := [], errors := [] } g h
      · exact foldl_registry_mono ext (f :: fs) { st := st, processed := [], errors := [] } g h

/-- Counting a document across a merged (concatenated) list of stores sums
the per-store counts: concatenation does not collapse duplicates. -/
theorem count_flatten_sum (d : Doc) :
    ∀ (L : List VectorStore), L.flatten.count d = (L.map (fun s => s.count d)).sum := by
  intro L
  induction L with
  | nil => rfl
  | cons s t ih => simp [List.count_append, ih]

/-! ## Claims -/

/-- Claim C2: for every `/ask` request made when the filename registry is
empty, the response is the 400 error `Vector store is not initialized.
Please upload PDF files first.` — uniformly in the question and in the chain
outcome, i.e. the result does not depend on any retrieval or generation. -/
theorem C2_ask_before_upload (ext : Ext) (st : AppState) (question : Option String)
    (outcome : ChainOutcome) (h : st.registry = []) :
    ask_question ext st question outcome
      = { status := 400,
          error := some "Vector store is not initialized. Please upload PDF files first.",
          answer := none, context := none } := by
  unfold ask_question load_and_merge_vector_stores get_pdf_filenames_from_disk
  simp [h]

/-- Witness for C2 at the fresh state: the registry is empty and the `/ask`
response is the no-index error. -/
theorem C2_witness :
    st0.registry = []
    ∧ ask_question ext0 st0 (some "What is this about?") (ChainOutcome.ok "ans" [d0])
        = { status := 400,
            error := some "Vector store is not initialized. Please upload PDF files first.",
            answer := none, context := none } :=
  ⟨rfl, C2_ask_before_upload ext0 st0 (some "What is this about?")
      (ChainOutcome.ok "ans" [d0]) rfl⟩

/-- Claim C3: an `/upload` request whose only file has a filename without the
pdf extension gets a 400 response, and the disk state (upload directory,
index directory, registry) is unchanged. -/
theorem C3_non_pdf_rejected (ext : Ext) (st : AppState) (f : UpFile)
    (h : allowed_file f.filename = false) :
    (upload_files ext st (some [f])).1 = st
    ∧ (upload_files ext st (some [f])).2.status = 400 := by
  by_cases hf : f.filename = ""
  · constructor <;> simp [upload_files, hf, uploadErr400]
  · constructor <;> simp [upload_files, hf, process_one, h]

/-- Witness for C3: uploading `notes.txt` alone leaves the fresh state
untouched and returns 400. -/
theorem C3_witness :
    (upload_files ext0 st0
        (some [{ filename := "notes.txt", bytes := [1], pages := ["t"], embedOk := true }])).1 = st0
    ∧ (upload_files ext0 st0
        (some [{ filename := "notes.txt", bytes := [1], pages := ["t"], embedOk := true }])).2.status
        = 400 :=
  C3_non_pdf_rejected ext0 st0
    { filename := "notes.txt", bytes := [1], pages := ["t"], embedOk := true } (by decide)

/-- Claim C10: `update_pdf_filenames_on_disk` is idempotent — registering a
filename already present leaves the registry unchanged (so in particular a
repeated registration is a no-op) — and any sequence of registrations
starting from the empty registry yields a duplicate-free registry. -/
theorem C10_registry_no_duplicates :
    (∀ (f : String) (reg : List String), f ∈ reg →
        update_pdf_filenames_on_disk f reg = reg)
    ∧ (∀ (f : String) (reg : List String),
        update_pdf_filenames_on_disk f (update_pdf_filenames_on_disk f reg)
          = update_pdf_filenames_on_disk f reg)
    ∧ (∀ (fs : List String),
        (fs.foldl (fun reg g => update_pdf_filenames_on_disk g reg) []).Nodup) := by
  refine ⟨update_mem_eq, ?_, fun fs => foldl_update_nodup fs [] (by simp)⟩
  intro f reg
  exact update_mem_eq f (update_pdf_filenames_on_disk f reg) (update_mem_self f reg)

/-- Witness for C10: re-registering `a.pdf` is a no-op and a duplicated
upload sequence yields a duplicate-free registry. -/
theorem C10_witness :
    update_pdf_filenames_on_disk "a.pdf" ["a.pdf"] = ["a.pdf"]
    ∧ (["a.pdf", "b.pdf", "a.pdf"].foldl
        (fun reg g => update_pdf_filenames_on_disk g reg) []).Nodup :=
  ⟨C10_registry_no_duplicates.1 "a.pdf" ["a.pdf"] (by decide),
   C10_registry_no_duplicates.2.2 ["a.pdf", "b.pdf", "a.pdf"]⟩

/-- A filename passing the extension check is non-empty, so the upload
handler reaches the per-file loop on a single-file request. -/
theorem allowed_filename_ne_empty (f : String) (h : allowed_file f = true) : f ≠ "" := by
  intro e
  rw [e] at h
  exact absurd h (by decide)

/-- The success branch of the upload loop: a file that passes the extension,
size, extraction and embedding stages is saved, indexed under its sanitised
name, and registered, and the sanitised name is appended to
`processed_files`. -/
theorem process_one_success (ext : Ext) (acc : LoopAcc) (f : UpFile)
    (hA : allowed_file f.filename = true)
    (hS : ¬ f.bytes.length > MAX_FILE_SIZE_MB * 1024 * 1024)
    (hT : extract_text_from_pdf f.pages ≠ "")
    (hE : f.embedOk = true) :
    process_one ext acc f
      = { st := { uploadDir := assocStore (ext.secure_filename f.filename) f.bytes acc.st.uploadDir,
                  indexDir := assocStore (ext.secure_filename f.filename)
                      (FAISS_from_texts (ext.split_text (extract_text_from_pdf f.pages)))
                      acc.st.indexDir,
                  registry := update_pdf_filenames_on_disk (ext.secure_filename f.filename)
                      acc.st.registry },
          processed := acc.processed ++ [ext.secure_filename f.filename],
          errors := acc.errors } := by
  simp [process_one, hA, hE, hS, hT]

/-- Claim C4: after a successful upload of a valid PDF, `/get-pdf-names`
includes the sanitised filename; and no upload request ever removes a
previously registered filename, so the registry accumulates across
uploads. -/
theorem C4_registry_accumulates (ext : Ext) (st : AppState) (f : UpFile)
    (hA : allowed_file f.filename = true)
    (hS : ¬ f.bytes.length > MAX_FILE_SIZE_MB * 1024 * 1024)
    (hT : extract_text_from_pdf f.pages ≠ "")
    (hE : f.embedOk = true) :
    ext.secure_filename f.filename ∈ get_pdf_names (upload_files ext st (some [f])).1
    ∧ ∀ (st2 : AppState) (files : Option (List UpFile)) (g : String),
        g ∈ get_pdf_names st2 → g ∈ get_pdf_names (upload_files ext st2 files).1 := by
  constructor
  · have hne : f.filename ≠ "" := allowed_filename_ne_empty f.filename hA
    simp only [upload_files, hne, if_false, List.foldl_cons, List.foldl_nil,
      process_one_success ext _ f hA hS hT hE]
    simp [get_pdf_names, get_pdf_filenames_from_disk, update_mem_self]
  · intro st2 files g hg
    exact upload_registry_mono ext st2 files g hg

/-- Witness for C4: uploading the fixture PDF registers `doc.pdf`, and an
upload on a state already knowing `a.pdf` keeps `a.pdf` registered. -/
theorem C4_witness :
    ("doc.pdf" : String) ∈ get_pdf_names (upload_files ext0 st0 (some [f0])).1
    ∧ ("a.pdf" : String) ∈ get_pdf_names (upload_files ext0 stOne (some [f0])).1 :=
  ⟨(C4_registry_accumulates ext0 st0 f0 (by decide) (by decide) (by decide) rfl).1,
   (C4_registry_accumulates ext0 st0 f0 (by decide) (by decide) (by decide) rfl).2
     stOne (some [f0]) "a.pdf" (by decide)⟩

/-- Claim C5: the merged in-memory index is exactly the concatenation, in
filename-registry order, of the loadable per-document indexes: the first
loadable registry entry is the base store and each later loadable entry is
appended (`merge_from`) in registry order. -/
theorem C5_merge_order (ext : Ext) (st : AppState)
    (h : st.registry.filterMap
        (fun fn => assocLookup (ext.secure_filename fn) st.indexDir) ≠ []) :
    load_and_merge_vector_stores ext st
      = some (st.registry.filterMap
          (fun fn => assocLookup (ext.secure_filename fn) st.indexDir)).flatten := by
  rw [load_and_merge_spec]
  simp [h]

/-- Witness for C5 on a registry whose order (`b.pdf` before `a.pdf`)
disagrees with the index-directory order: the merge follows the registry. -/
theorem C5_witness : load_and_merge_vector_stores ext0 stTwo = some [d1, d0] := by
  have h := C5_merge_order ext0 stTwo (by decide)
  exact h.trans (by decide)

/-- Claim C6: every `/ask` response context is free of duplicate
`(source, page)` entries, while the merged index itself is never
deduplicated — the multiplicity of a document in the merged store is the sum
of its multiplicities over the loaded per-document indexes. -/
theorem C6_response_dedup (ext : Ext) (st : AppState) (question : Option String)
    (outcome : ChainOutcome) (l : List (String × Int))
    (h : (ask_question ext st question outcome).context = some l) :
    l.Nodup
    ∧ ∀ (m : VectorStore) (d : Doc),
        load_and_merge_vector_stores ext st = some m →
        m.count d = ((st.registry.filterMap
            (fun fn => assocLookup (ext.secure_filename fn) st.indexDir)).map
            (fun s => s.count d)).sum := by
  constructor
  · unfold ask_question at h
    cases hL : load_and_merge_vector_stores ext st with
    | none => rw [hL] at h; simp at h
    | some m =>
      rw [hL] at h
      cases question with
      | none => simp at h
      | some q =>
        by_cases hq : q = ""
        · simp [hq] at h
        · cases outcome with
          | exn msg => simp [hq] at h
          | ok ans ctx =>
            simp [hq] at h
            rw [← h]
            exact List.nodup_dedup _
  · intro m d hm
    rw [load_and_merge_spec] at hm
    by_cases hp : st.registry.filterMap
        (fun fn => assocLookup (ext.secure_filename fn) st.indexDir) = []
    · rw [if_pos hp] at hm
      cases hm
    · rw [if_neg hp] at hm
      injection hm with hm
      rw [← hm]
      exact count_flatten_sum d _

/-- Witness for C6: a store holding the same document twice yields a context
with a single deduplicated entry, while the merged store keeps both
copies. -/
theorem C6_witness :
    ([(("Unknown" : String), (0 : Int))]).Nodup ∧ List.count d0 [d0, d0] = 2 := by
  have H := C6_response_dedup ext0 stDup (some "q") (ChainOutcome.ok "ans" [d0, d0])
      [("Unknown", 0)] (by decide)
  refine ⟨H.1, ?_⟩
  have h2 := H.2 [d0, d0] d0 (by decide)
  exact h2.trans (by decide)

/-- Claim C7: `/get-pdf/<name>` returns 404 `PDF not found` when no file
with the sanitised name exists in the upload directory, and the raw file
bytes with status 200 when it does. -/
theorem C7_get_pdf_spec (ext : Ext) (st : AppState) (pdf_name : String) :
    (assocLookup (ext.secure_filename pdf_name) st.uploadDir = none →
        get_pdf ext st pdf_name
          = { status := 404, body := none, error := some "PDF not found" })
    ∧ ∀ b, assocLookup (ext.secure_filename pdf_name) st.uploadDir = some b →
        get_pdf ext st pdf_name = { status := 200, body := some b, error := none } := by
  constructor
  · intro h
    simp [get_pdf, h]
  · intro b h
    simp [get_pdf, h]

/-- Witness for C7: a never-uploaded name 404s on the fresh state; an
uploaded name returns its bytes. -/
theorem C7_witness :
    get_pdf ext0 st0 "ghost.pdf" = { status := 404, body := none, error := some "PDF not found" }
    ∧ get_pdf ext0 stOne "a.pdf" = { status := 200, body := some [1], error := none } :=
  ⟨(C7_get_pdf_spec ext0 st0 "ghost.pdf").1 (by decide),
   (C7_get_pdf_spec ext0 stOne "a.pdf").2 [1] (by decide)⟩

/-- Claim C8: a file larger than `MAX_FILE_SIZE_MB` (25 MB) is rejected by
the per-file loop before any disk write — the loop step only appends the
size error (saving nothing, indexing nothing, registering nothing) — and a
single-file upload of such a file returns 400 with the state unchanged. -/
theorem C8_oversized_rejected_before_save (ext : Ext) (st : AppState) (f : UpFile)
    (hA : allowed_file f.filename = true)
    (hS : f.bytes.length > MAX_FILE_SIZE_MB * 1024 * 1024) :
    (∀ acc : LoopAcc, process_one ext acc f
        = { acc with errors := acc.errors ++
            ["File exceeds " ++ toString MAX_FILE_SIZE_MB ++ "MB limit: " ++ f.filename] })
    ∧ (upload_files ext st (some [f])).1 = st
    ∧ (upload_files ext st (some [f])).2.status = 400 := by
  have hstep : ∀ acc : LoopAcc, process_one ext acc f
      = { acc with errors := acc.errors ++
          ["File exceeds " ++ toString MAX_FILE_SIZE_MB ++ "MB limit: " ++ f.filename] } := by
    intro acc
    simp [process_one, hA, hS]
  have hne : f.filename ≠ "" := allowed_filename_ne_empty f.filename hA
  have hup : upload_files ext st (some [f])
      = (st, { status := 400, error := some "Failed to process any files.",
               details := some ["File exceeds " ++ toString MAX_FILE_SIZE_MB
                 ++ "MB limit: " ++ f.filename],
               message := none, processed_files := none, errors := none }) := by
    simp [upload_files, hne, hstep]
  exact ⟨hstep, by rw [hup], by rw [hup]⟩

/-- Witness for C8: a 25 MB + 1 byte PDF is rejected with only the size
error, and the state is unchanged. -/
theorem C8_witness :
    process_one ext0 { st := st0, processed := [], errors := [] }
        { filename := "big.pdf", bytes := List.replicate (MAX_FILE_SIZE_MB * 1024 * 1024 + 1) 0,
          pages := ["t"], embedOk := true }
      = { st := st0, processed := [], errors := ["File exceeds 25MB limit: big.pdf"] }
    ∧ (upload_files ext0 st0
        (some [{ filename := "big.pdf",
                 bytes := List.replicate (MAX_FILE_SIZE_MB * 1024 * 1024 + 1) 0,
                 pages := ["t"], embedOk := true }])).1 = st0 := by
  have H := C8_oversized_rejected_before_save ext0 st0
      { filename := "big.pdf", bytes := List.replicate (MAX_FILE_SIZE_MB * 1024 * 1024 + 1) 0,
        pages := ["t"], embedOk := true }
      (by decide) (by simp)
  refine ⟨?_, H.2.1⟩
  have h1 := H.1 { st := st0, processed := [], errors := [] }
  refine h1.trans ?_
  simp [MAX_FILE_SIZE_MB]
  decide

/-- Claim C9 counterexample: in this revision the `/ask` exception handler
does not inspect the error text at all — a quota-exhausted error and an
unrelated error produce the identical fixed 500 response, so no failure
class is detected by substring-matching and no class-specific remapping
happens. -/
theorem C9_counterexample :
    ask_question ext0 stOne (some "q")
        (ChainOutcome.exn "429 You exceeded your current quota")
      = ask_question ext0 stOne (some "q") (ChainOutcome.exn "unrelated internal failure")
    ∧ (ask_question ext0 stOne (some "q")
        (ChainOutcome.exn "429 You exceeded your current quota")).error
      = some "An error occurred while processing your question."
    ∧ (ask_question ext0 stOne (some "q")
        (ChainOutcome.exn "429 You exceeded your current quota")).status = 500 :=
  ⟨rfl, rfl, rfl⟩

/-- Claim C9 as amended: every exception raised during `/ask`
retrieval/generation — whatever its text, quota/rate-limit/auth included —
is remapped to the one fixed friendlier message
`An error occurred while processing your question.` with status 500, and
every exception raised while embedding an accepted file during upload
appends the one fixed message
`An internal error occurred while processing <filename>.`; the error text is
never substring-matched. -/
theorem C9_generic_exception_remap (ext : Ext) (st : AppState) (q msg : String)
    (hL : (load_and_merge_vector_stores ext st).isSome = true) (hq : q ≠ "") :
    ask_question ext st (some q) (ChainOutcome.exn msg)
      = { status := 500, error := some "An error occurred while processing your question.",
          answer := none, context := none }
    ∧ ∀ (acc : LoopAcc) (f : UpFile),
        allowed_file f.filename = true →
        ¬ f.bytes.length > MAX_FILE_SIZE_MB * 1024 * 1024 →
        extract_text_from_pdf f.pages ≠ "" →
        f.embedOk = false →
        (process_one ext acc f).errors
          = acc.errors ++ ["An internal error occurred while processing " ++ f.filename ++ "."] := by
  constructor
  · unfold ask_question
    cases hm : load_and_merge_vector_stores ext st with
    | none => rw [hm] at hL; simp at hL
    | some m => simp [hq]
  · intro acc f hA hS hT hE
    simp [process_one, hA, hS, hT, hE]

/-- Witness for C9 (amended): an auth-style error text yields the fixed 500
response, and an embedding failure during upload appends the fixed per-file
message. -/
theorem C9_witness :
    ask_question ext0 stOne (some "q") (ChainOutcome.exn "401 invalid api key")
      = { status := 500, error := some "An error occurred while processing your question.",
          answer := none, context := none }
    ∧ (process_one ext0 { st := st0, processed := [], errors := [] }
        { filename := "bad.pdf", bytes := [1], pages := ["x"], embedOk := false }).errors
      = ["An internal error occurred while processing bad.pdf."] := by
  have H := C9_generic_exception_remap ext0 stOne "q" "401 invalid api key"
      (by decide) (by decide)
  refine ⟨H.1, ?_⟩
  have h2 := H.2 { st := st0, processed := [], errors := [] }
      { filename := "bad.pdf", bytes := [1], pages := ["x"], embedOk := false }
      (by decide) (by decide) (by decide) rfl
  exact h2.trans (by decide)

/-- Claim C1 (code bug): the handler does compute
`page = metadata.get("page", -1) + 1` and
`source = basename(metadata.get("source", "Unknown"))`, but
`create_and_save_embeddings` calls `FAISS.from_texts` with no metadata and
`extract_text_from_pdf` discards page boundaries, so a chunk never carries
`source` or `page`.  Evaluating the whole pipeline on the fixture upload:
the index stores only the metadata-free chunk, and the `/ask` context entry
is `("Unknown", 0)` — never the filename and 1-indexed page the claim (and
the spec) promise. -/
theorem C1_context_metadata_lost :
    (upload_files ext0 st0 (some [f0])).1.indexDir = [("doc.pdf", [d0])]
    ∧ ask_question ext0 (upload_files ext0 st0 (some [f0])).1 (some "where is hello?")
        (ChainOutcome.ok "ans" [d0])
      = { status := 200, error := none, answer := some "ans",
          context := some [("Unknown", 0)] }
    ∧ (("Unknown" : String), (0 : Int)) ≠ (("doc.pdf" : String), (1 : Int)) :=
  ⟨by decide, by decide, by decide⟩

end QueryPDF
